import Mathlib

/-!
# Readiness-gated client acquisition (`pkg/public/api.go`)

A shallow embedding of the Go file `pkg/public/api.go` and theorems about it.

The file performs effects: it writes to `os.Stderr`, it may end the process
with `os.Exit`, and it calls into the packages `healthcheck` and
`controller/api/public`, whose code is not part of the file.  Effects are
modelled by explicit state passing over a `World`; the functions of the other
packages are parameters of the embedding, so every theorem holds for every
implementation of them.
-/

namespace Linkerd

/-! ## Effects -/

/-- How a piece of the program ends: it returns a value to its caller, the
process is ended by `os.Exit`, or the step budget of a bounded loop of the
model ran out before the computation finished. -/
inductive Outcome (α : Type) where
  | returned (value : α)
  | exited (code : Int)
  | outOfFuel
  deriving DecidableEq, Repr

/-- The part of the outside world the program acts on: the writes made to
`os.Stderr` so far, one entry per write call, oldest first, and everything
else (`env`: cluster, clock, heap of the other packages). -/
structure World (ε : Type) where
  stderr : List String
  env : ε
  deriving DecidableEq, Repr

/-- An effectful computation: a world transformer that also says how it ended. -/
def Proc (ε α : Type) : Type := World ε → Outcome α × World ε

/-- Return a value without touching the world. -/
def Proc.pure {ε α : Type} (a : α) : Proc ε α := fun w => (Outcome.returned a, w)

/-- Sequencing: the continuation runs only when the first part returned; after
`os.Exit` nothing more of the program runs. -/
def Proc.bind {ε α β : Type} (m : Proc ε α) (k : α → Proc ε β) : Proc ε β := fun w =>
  match m w with
  | (Outcome.returned a, w1) => k a w1
  | (Outcome.exited code, w1) => (Outcome.exited code, w1)
  | (Outcome.outOfFuel, w1) => (Outcome.outOfFuel, w1)

instance (ε : Type) : Monad (Proc ε) where
  pure := Proc.pure
  bind := Proc.bind

/-- One write call on `os.Stderr` with the already formatted text, as made by
`fmt.Fprintln(os.Stderr, ...)` and `fmt.Fprintf(os.Stderr, ...)`. -/
def writeStderr {ε : Type} (text : String) : Proc ε Unit := fun w =>
  (Outcome.returned (), { w with stderr := w.stderr ++ [text] })

/-- The call `os.Exit(code)`: the process ends, nothing after it runs. -/
def osExit {ε α : Type} (code : Int) : Proc ε α := fun w => (Outcome.exited code, w)

/-! ## Data of package `healthcheck` used by the file -/

/-- A Go `error` value that is not nil, identified with the text its `Error()`
method returns, which is what the verb `%s` prints. -/
abbrev GoError := String

/-- Instants of `time.Time`, counted from the zero value `time.Time{}`. -/
abbrev Time := Int

/-- The zero value `time.Time{}`. -/
def zeroTime : Time := 0

/-- The three `healthcheck.CategoryID` constants the file names.  Their
declarations are outside the file, so their values are parameters; `γ` is the
type `healthcheck.CategoryID`. -/
structure CategoryIDs (γ : Type) where
  KubernetesAPIChecks : γ
  LinkerdControlPlaneExistenceChecks : γ
  LinkerdAPIChecks : γ

/-- The fields of `healthcheck.CheckResult` that the file reads.  `Err` is
`none` for a nil error. -/
structure CheckResult (γ : Type) where
  Category : γ
  Retry : Bool
  Warning : Bool
  Err : Option GoError
  deriving DecidableEq, Repr

/-- The struct `healthcheck.Options`: the field `RetryDeadline`, the only one
the file touches, and all its other fields together as `others`. -/
structure Options (ω : Type) where
  RetryDeadline : Time
  others : ω
  deriving DecidableEq, Repr

/-! ## `exitOnError` -/

/-- The observer `exitOnError` (api.go, lines 90-113). -/
def exitOnError {ε γ : Type} [DecidableEq γ] (C : CategoryIDs γ)
    (result : CheckResult γ) : Proc ε Unit :=
  if result.Retry then
    writeStderr ("Waiting for control plane to become available" ++ "\n")
  else
    match result.Err with
    | some err =>
      if !result.Warning then do
        let msg : String :=
          if result.Category = C.KubernetesAPIChecks then "Cannot connect to Kubernetes"
          else if result.Category = C.LinkerdControlPlaneExistenceChecks then "Cannot find Linkerd"
          else if result.Category = C.LinkerdAPIChecks then "Cannot connect to Linkerd"
          else ""
        writeStderr (msg ++ ": " ++ err ++ "\n")
        let checkCmd : String := "linkerd check"
        writeStderr ("Validate the install with: " ++ checkCmd ++ "\n")
        osExit 1
      else
        pure ()
    | none => pure ()

/-- The observer applied to each result of a run in turn, in the order the
results are reported; a result is reported only if the process is still alive. -/
def reportEach {ε γ : Type} (observer : CheckResult γ → Proc ε Unit) :
    List (CheckResult γ) → Proc ε Unit
  | [] => Proc.pure ()
  | r :: rest => Proc.bind (observer r) (fun _ => reportEach observer rest)

/-! ## Raw clients -/

/-- The four client constructors of package `controller/api/public` that the
file calls.  Their code is outside the file, so they are parameters: any
effectful functions of the right shape.  `Ctx` is `context.Context`, `KubeAPI`
is `*k8s.KubernetesAPI`, `κp` is `publicPb.ApiClient`, `κv` is `pb.ApiClient`;
a result is the Go pair `(client, error)`. -/
structure PublicPkg (ε Ctx KubeAPI κp κv : Type) where
  NewInternalPublicClient : String → String → Proc ε (κp × Option GoError)
  NewExternalPublicClient : Ctx → String → KubeAPI → Proc ε (κp × Option GoError)
  NewInternalClient : String → String → Proc ε (κv × Option GoError)
  NewExternalClient : Ctx → String → KubeAPI → Proc ε (κv × Option GoError)

/-- The function `RawPublicAPIClient` (api.go, lines 17-23). -/
def RawPublicAPIClient {ε Ctx KubeAPI κp κv : Type} (P : PublicPkg ε Ctx KubeAPI κp κv)
    (ctx : Ctx) (kubeAPI : KubeAPI) (controlPlaneNamespace : String) (apiAddr : String) :
    Proc ε (κp × Option GoError) :=
  if apiAddr ≠ "" then
    P.NewInternalPublicClient controlPlaneNamespace apiAddr
  else
    P.NewExternalPublicClient ctx controlPlaneNamespace kubeAPI

/-- The function `RawVizAPIClient` (api.go, lines 26-32). -/
def RawVizAPIClient {ε Ctx KubeAPI κp κv : Type} (P : PublicPkg ε Ctx KubeAPI κp κv)
    (ctx : Ctx) (kubeAPI : KubeAPI) (controlPlaneNamespace : String) (apiAddr : String) :
    Proc ε (κv × Option GoError) :=
  if apiAddr ≠ "" then
    P.NewInternalClient controlPlaneNamespace apiAddr
  else
    P.NewExternalClient ctx controlPlaneNamespace kubeAPI

/-! ## Checked clients -/

/-- The functions and methods of package `healthcheck` that the file calls.
Their code is outside the file, so they are parameters: any effectful functions
of the right shape.  `HC` is `*healthcheck.HealthChecker` (a reference; what it
points to lives in the world), `κp` is `public.PublicAPIClient`, `κv` is
`public.VizAPIClient`.  `RunChecks` receives the observer it reports to. -/
structure HealthcheckPkg (ε ω γ HC κp κv : Type) where
  NewHealthChecker : List γ → Options ω → Proc ε HC
  RunChecks : HC → (CheckResult γ → Proc ε Unit) → Proc ε Bool
  PublicAPIClient : HC → Proc ε κp
  VizAPIClient : HC → Proc ε κv

/-- The function `CheckPublicAPIClientOrRetryOrExit` (api.go, lines 54-68). -/
def CheckPublicAPIClientOrRetryOrExit {ε ω γ HC κp κv : Type} [DecidableEq γ]
    (H : HealthcheckPkg ε ω γ HC κp κv) (C : CategoryIDs γ)
    (hcOptions : Options ω) (apiChecks : Bool) : Proc ε κp :=
  let checks : List γ := [C.KubernetesAPIChecks, C.LinkerdControlPlaneExistenceChecks]
  let checks : List γ := if apiChecks then checks ++ [C.LinkerdAPIChecks] else checks
  Proc.bind (H.NewHealthChecker checks hcOptions) (fun hc =>
    Proc.bind (H.RunChecks hc (exitOnError C)) (fun _ =>
      H.PublicAPIClient hc))

/-- The function `CheckVizAPIClientOrRetryOrExit` (api.go, lines 74-88). -/
def CheckVizAPIClientOrRetryOrExit {ε ω γ HC κp κv : Type} [DecidableEq γ]
    (H : HealthcheckPkg ε ω γ HC κp κv) (C : CategoryIDs γ)
    (hcOptions : Options ω) (apiChecks : Bool) : Proc ε κv :=
  let checks : List γ := [C.KubernetesAPIChecks, C.LinkerdControlPlaneExistenceChecks]
  let checks : List γ := if apiChecks then checks ++ [C.LinkerdAPIChecks] else checks
  Proc.bind (H.NewHealthChecker checks hcOptions) (fun hc =>
    Proc.bind (H.RunChecks hc (exitOnError C)) (fun _ =>
      H.VizAPIClient hc))

/-- The function `CheckPublicAPIClientOrExit` (api.go, lines 37-40).  The
argument is passed by value, so the assignment changes a private copy. -/
def CheckPublicAPIClientOrExit {ε ω γ HC κp κv : Type} [DecidableEq γ]
    (H : HealthcheckPkg ε ω γ HC κp κv) (C : CategoryIDs γ)
    (hcOptions : Options ω) : Proc ε κp :=
  let hcOptions : Options ω := { hcOptions with RetryDeadline := zeroTime }
  CheckPublicAPIClientOrRetryOrExit H C hcOptions false

/-- The function `CheckVizAPIClientOrExit` (api.go, lines 45-48). -/
def CheckVizAPIClientOrExit {ε ω γ HC κp κv : Type} [DecidableEq γ]
    (H : HealthcheckPkg ε ω γ HC κp κv) (C : CategoryIDs γ)
    (hcOptions : Options ω) : Proc ε κv :=
  let hcOptions : Options ω := { hcOptions with RetryDeadline := zeroTime }
  CheckVizAPIClientOrRetryOrExit H C hcOptions false

/-! ## The Readiness Gate, from the specification

The health checker itself (`healthcheck.NewHealthChecker`, `RunChecks`) is not
part of the file.  For the one property that depends on how it reacts to a
retryable outcome, it is modelled below from section 4.2 of the specification.
-/

/-- Modelled from the spec: the collaborators of the Readiness Gate, which is
`RunChecks` of package `healthcheck` and is missing from the source (spec
sections 4.2 and 6): the Check Provider, which for a category returns its
outcomes and may do I/O; the clock, read for `now`; the fixed retry sleep. -/
structure GateEnv (ε γ : Type) where
  checkProvider : γ → Proc ε (List (CheckResult γ))
  now : ε → Time
  sleep : Proc ε Unit

/-- What handling the outcomes of one attempt of a category came to. -/
inductive Verdict where
  | passed
  | retry
  deriving DecidableEq, Repr

/-- Modelled from the spec: step 3 of the Readiness Gate algorithm (spec
section 4.2), missing from the source.  Each outcome is handed to `onOutcome`;
a success continues; a warning continues; a retryable outcome before the
deadline sleeps and asks for the category to be re-run; a retryable outcome at
or after the deadline, or with the deadline unset, terminates the process; a
hard failure terminates the process.  Termination is with exit code 1 (spec
section 6). -/
def gateOutcomes {ε γ : Type} (G : GateEnv ε γ) (deadline : Time)
    (onOutcome : CheckResult γ → Proc ε Unit) : List (CheckResult γ) → Proc ε Verdict
  | [] => Proc.pure Verdict.passed
  | r :: rest =>
    Proc.bind (onOutcome r) (fun _ =>
      if r.Err = none then gateOutcomes G deadline onOutcome rest
      else if r.Warning then gateOutcomes G deadline onOutcome rest
      else if r.Retry then
        fun w =>
          if deadline ≠ zeroTime ∧ G.now w.env < deadline then
            Proc.bind G.sleep (fun _ => Proc.pure Verdict.retry) w
          else osExit 1 w
      else osExit 1)

/-- Modelled from the spec: steps 2 and 3 of the Readiness Gate for one
category (spec section 4.2), missing from the source: ask the Check Provider
for the outcomes, handle them, and on a retry re-run the entire category from
the start.  The first argument bounds the number of re-runs: when a re-run is
asked for and none is left, the model stops with `outOfFuel`. -/
def gateCategory {ε γ : Type} (G : GateEnv ε γ) (deadline : Time)
    (onOutcome : CheckResult γ → Proc ε Unit) : Nat → γ → Proc ε Unit
  | 0, c =>
    Proc.bind (G.checkProvider c) (fun outcomes =>
      Proc.bind (gateOutcomes G deadline onOutcome outcomes) (fun v =>
        match v with
        | Verdict.passed => Proc.pure ()
        | Verdict.retry => fun w => (Outcome.outOfFuel, w)))
  | n + 1, c =>
    Proc.bind (G.checkProvider c) (fun outcomes =>
      Proc.bind (gateOutcomes G deadline onOutcome outcomes) (fun v =>
        match v with
        | Verdict.passed => Proc.pure ()
        | Verdict.retry => gateCategory G deadline onOutcome n c))

/-- Modelled from the spec: the Readiness Gate over its ordered category list
(spec section 4.2), missing from the source: the categories run strictly in
order, each after the earlier ones completed without termination. -/
def gateRunChecks {ε γ : Type} (G : GateEnv ε γ) (deadline : Time)
    (onOutcome : CheckResult γ → Proc ε Unit) (retries : Nat) : List γ → Proc ε Bool
  | [] => Proc.pure true
  | c :: rest =>
    Proc.bind (gateCategory G deadline onOutcome retries c) (fun _ =>
      gateRunChecks G deadline onOutcome retries rest)

/-- Modelled from the spec: package `healthcheck` as the Readiness Gate of spec
section 4.2, missing from the source.  The checker keeps the category list and
the options it was built with; the retry policy is the options' deadline; the
client is produced after the checks (step 4) by `publicClient` / `vizClient`,
which stay parameters. -/
def gateHealthcheck {ε ω γ κp κv : Type} (G : GateEnv ε γ) (retries : Nat)
    (publicClient : Options ω → Proc ε κp) (vizClient : Options ω → Proc ε κv) :
    HealthcheckPkg ε ω γ (List γ × Options ω) κp κv where
  NewHealthChecker := fun checks options => Proc.pure (checks, options)
  RunChecks := fun hc observer => gateRunChecks G hc.2.RetryDeadline observer retries hc.1
  PublicAPIClient := fun hc => publicClient hc.2
  VizAPIClient := fun hc => vizClient hc.2

/-! ## Sample inputs -/

/-- Sample category identifiers, pairwise distinct, for evaluating the
functions on concrete inputs. -/
def sampleIDs : CategoryIDs String :=
  { KubernetesAPIChecks := "kubernetes-api"
    LinkerdControlPlaneExistenceChecks := "linkerd-existence"
    LinkerdAPIChecks := "linkerd-api" }

/-- A sample world: nothing written to `os.Stderr` yet. -/
def sampleWorld : World Unit := { stderr := [], env := () }

/-- A sample warning outcome: an error is present, Warning is set, Retry is not. -/
def sampleWarning : CheckResult String :=
  { Category := "linkerd-api", Retry := false, Warning := true,
    Err := some "certificate expires soon" }

/-- A sample implementation of the client constructors: the direct ones hand
back a client named after namespace and address, the proxied ones fail. -/
def samplePublicPkg : PublicPkg Unit Unit Unit String String where
  NewInternalPublicClient := fun ns addr =>
    Proc.pure ("public client for " ++ ns ++ " at " ++ addr, none)
  NewExternalPublicClient := fun _ ns _ =>
    Proc.pure ("", some ("no route to the public API in " ++ ns))
  NewInternalClient := fun ns addr =>
    Proc.pure ("viz client for " ++ ns ++ " at " ++ addr, none)
  NewExternalClient := fun _ ns _ =>
    Proc.pure ("", some ("no route to the viz API in " ++ ns))

/-- A sample Check Provider: the control plane existence category reports a
success, then a retryable failure, then a hard failure; every other category
reports one success. -/
def sampleGate : GateEnv Unit String where
  checkProvider := fun c =>
    if c = "linkerd-existence" then
      Proc.pure
        [{ Category := c, Retry := false, Warning := false, Err := none },
         { Category := c, Retry := true, Warning := false,
           Err := some "waiting for check to complete" },
         { Category := c, Retry := false, Warning := false, Err := some "no pods" }]
    else
      Proc.pure [{ Category := c, Retry := false, Warning := false, Err := none }]
  now := fun _ => 100
  sleep := Proc.pure ()

/-! ## Theorems about `exitOnError` -/

section ExitOnError

variable {ε γ : Type} [DecidableEq γ]

/-- The two writes and the exit of the hard-failure branch, for a given headline. -/
theorem exitOnError_hard (C : CategoryIDs γ) (r : CheckResult γ) (err : GoError)
    (w : World ε) (hRetry : r.Retry = false) (hErr : r.Err = some err)
    (hWarn : r.Warning = false) :
    exitOnError C r w =
      (Outcome.exited 1,
        { w with stderr := w.stderr ++
            [(if r.Category = C.KubernetesAPIChecks then "Cannot connect to Kubernetes"
              else if r.Category = C.LinkerdControlPlaneExistenceChecks then "Cannot find Linkerd"
              else if r.Category = C.LinkerdAPIChecks then "Cannot connect to Linkerd"
              else "") ++ ": " ++ err ++ "\n",
             "Validate the install with: linkerd check\n"] }) := by
  have hcmd : "Validate the install with: " ++ "linkerd check" ++ "\n"
      = "Validate the install with: linkerd check\n" := by decide
  simp only [exitOnError, hRetry, hErr, hWarn, hcmd]
  simp [bind, Proc.bind, writeStderr, osExit]

/-- A result that is marked Retry, or has no error, or is a warning, makes
`exitOnError` return. -/
theorem exitOnError_soft_returns (C : CategoryIDs γ) (r : CheckResult γ) (w : World ε)
    (h : r.Retry = true ∨ r.Err = none ∨ r.Warning = true) :
    (exitOnError C r w).1 = Outcome.returned () := by
  unfold exitOnError
  cases hR : r.Retry
  · cases hE : r.Err
    · simp [pure, Proc.pure]
    · cases hW : r.Warning
      · simp [hR, hE, hW] at h
      · simp [pure, Proc.pure]
  · simp [writeStderr]

/-- Without a Retry mark and without an error, or with a warning,
`exitOnError` does nothing at all. -/
theorem exitOnError_silent (C : CategoryIDs γ) (r : CheckResult γ) (w : World ε)
    (hRetry : r.Retry = false) (h : r.Err = none ∨ r.Warning = true) :
    exitOnError C r w = (Outcome.returned (), w) := by
  unfold exitOnError
  cases hE : r.Err
  · simp [hRetry, pure, Proc.pure]
  · cases hW : r.Warning
    · simp [hE, hW] at h
    · simp [hRetry, pure, Proc.pure]

/-- On a result marked Retry, `exitOnError` writes the waiting notice and returns. -/
theorem exitOnError_retry (C : CategoryIDs γ) (r : CheckResult γ) (w : World ε)
    (hRetry : r.Retry = true) :
    exitOnError C r w =
      (Outcome.returned (),
        { w with stderr := w.stderr ++ ["Waiting for control plane to become available\n"] }) := by
  have hmsg : "Waiting for control plane to become available" ++ "\n"
      = "Waiting for control plane to become available\n" := by decide
  simp [exitOnError, hRetry, hmsg, writeStderr]

/-- C3: for every check result, `exitOnError` ends the process, with exit code
1, if and only if the result is not marked Retry, carries an error and is not
marked Warning; in every other case it returns to its caller.  In particular a
warning result, a retryable result and a successful result never end the
process, whatever the category. -/
theorem C3_exitOnError_terminates_iff (C : CategoryIDs γ) (r : CheckResult γ) (w : World ε) :
    ((exitOnError C r w).1 = Outcome.exited 1 ↔
        (r.Retry = false ∧ r.Err ≠ none ∧ r.Warning = false)) ∧
    ((exitOnError C r w).1 = Outcome.exited 1 ∨ (exitOnError C r w).1 = Outcome.returned ()) ∧
    (r.Warning = true → (exitOnError C r w).1 = Outcome.returned ()) ∧
    (r.Retry = true → (exitOnError C r w).1 = Outcome.returned ()) ∧
    (r.Err = none → (exitOnError C r w).1 = Outcome.returned ()) := by
  have hard : r.Retry = false ∧ r.Err ≠ none ∧ r.Warning = false →
      (exitOnError C r w).1 = Outcome.exited 1 := by
    rintro ⟨hR, hE, hW⟩
    obtain ⟨err, hErr⟩ := Option.ne_none_iff_exists'.mp hE
    rw [exitOnError_hard C r err w hR hErr hW]
  have soft : ¬ (r.Retry = false ∧ r.Err ≠ none ∧ r.Warning = false) →
      (exitOnError C r w).1 = Outcome.returned () := by
    intro h
    apply exitOnError_soft_returns
    cases hR : r.Retry
    · cases hE : r.Err
      · exact Or.inr (Or.inl rfl)
      · cases hW : r.Warning
        · exact absurd ⟨hR, by simp [hE], hW⟩ h
        · exact Or.inr (Or.inr rfl)
    · exact Or.inl rfl
  refine ⟨⟨?_, hard⟩, ?_, ?_, ?_, ?_⟩
  · intro hx
    by_contra hc
    rw [soft hc] at hx
    cases hx
  · by_cases hc : r.Retry = false ∧ r.Err ≠ none ∧ r.Warning = false
    · exact Or.inl (hard hc)
    · exact Or.inr (soft hc)
  · intro hW
    exact exitOnError_soft_returns C r w (Or.inr (Or.inr hW))
  · intro hR
    exact exitOnError_soft_returns C r w (Or.inl hR)
  · intro hE
    exact exitOnError_soft_returns C r w (Or.inr (Or.inl hE))

/-- Witness for C3: a hard failure, a warning and a retryable result. -/
theorem C3_exitOnError_terminates_iff_witness :
    (exitOnError sampleIDs
        { Category := "linkerd-api", Retry := false, Warning := false, Err := some "timeout" }
        sampleWorld).1 = Outcome.exited 1 ∧
    (exitOnError sampleIDs
        { Category := "linkerd-api", Retry := false, Warning := true, Err := some "timeout" }
        sampleWorld).1 = Outcome.returned () ∧
    (exitOnError sampleIDs
        { Category := "linkerd-api", Retry := true, Warning := false, Err := some "timeout" }
        sampleWorld).1 = Outcome.returned () :=
  ⟨(C3_exitOnError_terminates_iff sampleIDs _ sampleWorld).1.mpr ⟨rfl, by simp, rfl⟩,
   (C3_exitOnError_terminates_iff sampleIDs _ sampleWorld).2.2.1 rfl,
   (C3_exitOnError_terminates_iff sampleIDs _ sampleWorld).2.2.2.1 rfl⟩

/-- C4: for every hard failure (Retry false, error present, Warning false)
whose category is one of the three categories the gate can run, `exitOnError`
makes exactly two writes to `os.Stderr`, in this order, and then ends the
process with exit code 1: the line made of the headline of the category, a
colon and the error, and the fixed remediation line.  The headline is "Cannot
connect to Kubernetes" for KubernetesAPIChecks, "Cannot find Linkerd" for
LinkerdControlPlaneExistenceChecks and "Cannot connect to Linkerd" for
LinkerdAPIChecks.  The three constants are pairwise distinct, which Go
requires of the case constants of one switch. -/
theorem C4_exitOnError_hard_failure_messages (C : CategoryIDs γ)
    (h12 : C.KubernetesAPIChecks ≠ C.LinkerdControlPlaneExistenceChecks)
    (h13 : C.KubernetesAPIChecks ≠ C.LinkerdAPIChecks)
    (h23 : C.LinkerdControlPlaneExistenceChecks ≠ C.LinkerdAPIChecks)
    (r : CheckResult γ) (err : GoError) (w : World ε)
    (hRetry : r.Retry = false) (hErr : r.Err = some err) (hWarn : r.Warning = false) :
    (r.Category = C.KubernetesAPIChecks →
      exitOnError C r w =
        (Outcome.exited 1,
          { w with stderr := w.stderr ++
              ["Cannot connect to Kubernetes: " ++ err ++ "\n",
               "Validate the install with: linkerd check\n"] })) ∧
    (r.Category = C.LinkerdControlPlaneExistenceChecks →
      exitOnError C r w =
        (Outcome.exited 1,
          { w with stderr := w.stderr ++
              ["Cannot find Linkerd: " ++ err ++ "\n",
               "Validate the install with: linkerd check\n"] })) ∧
    (r.Category = C.LinkerdAPIChecks →
      exitOnError C r w =
        (Outcome.exited 1,
          { w with stderr := w.stderr ++
              ["Cannot connect to Linkerd: " ++ err ++ "\n",
               "Validate the install with: linkerd check\n"] })) := by
  have e1 : "Cannot connect to Kubernetes" ++ ": " = "Cannot connect to Kubernetes: " := by decide
  have e2 : "Cannot find Linkerd" ++ ": " = "Cannot find Linkerd: " := by decide
  have e3 : "Cannot connect to Linkerd" ++ ": " = "Cannot connect to Linkerd: " := by decide
  refine ⟨?_, ?_, ?_⟩
  · intro hc
    rw [exitOnError_hard C r err w hRetry hErr hWarn, if_pos hc, e1]
  · intro hc
    rw [exitOnError_hard C r err w hRetry hErr hWarn, if_neg (by rw [hc]; exact h12.symm),
      if_pos hc, e2]
  · intro hc
    rw [exitOnError_hard C r err w hRetry hErr hWarn, if_neg (by rw [hc]; exact h13.symm),
      if_neg (by rw [hc]; exact h23.symm), if_pos hc, e3]

/-- Witness for C4: a hard failure of the control plane existence checks. -/
theorem C4_exitOnError_hard_failure_messages_witness :
    exitOnError sampleIDs
        { Category := "linkerd-existence", Retry := false, Warning := false,
          Err := some "namespace not found" }
        sampleWorld =
      (Outcome.exited 1,
        { sampleWorld with stderr := sampleWorld.stderr ++
            ["Cannot find Linkerd: " ++ "namespace not found" ++ "\n",
             "Validate the install with: linkerd check\n"] }) :=
  (C4_exitOnError_hard_failure_messages sampleIDs (by decide) (by decide) (by decide)
    { Category := "linkerd-existence", Retry := false, Warning := false,
      Err := some "namespace not found" }
    "namespace not found" sampleWorld rfl rfl rfl).2.1 rfl

/-- C5: for every check result marked Retry, whatever its category, error and
Warning flag, `exitOnError` makes exactly one write to `os.Stderr`, the waiting
notice "Waiting for control plane to become available", writes no headline or
remediation line, and returns without ending the process. -/
theorem C5_exitOnError_retry_notice (C : CategoryIDs γ) (r : CheckResult γ) (w : World ε)
    (hRetry : r.Retry = true) :
    exitOnError C r w =
      (Outcome.returned (),
        { w with stderr := w.stderr ++ ["Waiting for control plane to become available\n"] }) :=
  exitOnError_retry C r w hRetry

/-- Witness for C5: a retryable result that also carries an error and the
Warning flag. -/
theorem C5_exitOnError_retry_notice_witness :
    exitOnError sampleIDs
        { Category := "kubernetes-api", Retry := true, Warning := true,
          Err := some "waiting for check to complete" }
        sampleWorld =
      (Outcome.returned (),
        { sampleWorld with stderr := sampleWorld.stderr ++
            ["Waiting for control plane to become available\n"] }) :=
  C5_exitOnError_retry_notice sampleIDs _ sampleWorld rfl

/-- C6, as stated, fails: on a warning outcome (error present, Warning true,
Retry false) `exitOnError` returns but has written nothing, so it is not the
case that it printed a notice and returned. -/
theorem C6_warning_notice_counterexample :
    (sampleWarning.Err ≠ none ∧ sampleWarning.Warning = true ∧ sampleWarning.Retry = false) ∧
    ¬ ((exitOnError sampleIDs sampleWarning sampleWorld).2.stderr ≠ sampleWorld.stderr ∧
       (exitOnError sampleIDs sampleWarning sampleWorld).1 = Outcome.returned ()) := by
  refine ⟨⟨by simp [sampleWarning], rfl, rfl⟩, ?_⟩
  rw [exitOnError_silent sampleIDs sampleWarning sampleWorld rfl (Or.inr rfl)]
  simp

/-- C6, amended: for every warning outcome (error present, Warning true, Retry
false), `exitOnError` writes nothing to `os.Stderr` and does not end the
process: it returns and leaves the world as it was. -/
theorem C6_exitOnError_warning_silent (C : CategoryIDs γ) (r : CheckResult γ) (w : World ε)
    (_hErr : r.Err ≠ none) (hWarn : r.Warning = true) (hRetry : r.Retry = false) :
    exitOnError C r w = (Outcome.returned (), w) :=
  exitOnError_silent C r w hRetry (Or.inr hWarn)

/-- Witness for the amended C6. -/
theorem C6_exitOnError_warning_silent_witness :
    exitOnError sampleIDs sampleWarning sampleWorld = (Outcome.returned (), sampleWorld) :=
  C6_exitOnError_warning_silent sampleIDs sampleWarning sampleWorld
    (by simp [sampleWarning]) rfl rfl

/-- Reporting a list of successful results one after the other changes nothing. -/
theorem reportEach_success (C : CategoryIDs γ) (rs : List (CheckResult γ)) (w : World ε)
    (h : ∀ r ∈ rs, r.Err = none ∧ r.Retry = false) :
    reportEach (exitOnError C) rs w = (Outcome.returned (), w) := by
  induction rs with
  | nil => rfl
  | cons r rest ih =>
    have hr := h r (List.mem_cons_self r rest)
    have hrest : ∀ x ∈ rest, x.Err = none ∧ x.Retry = false :=
      fun x hx => h x (List.mem_cons_of_mem r hx)
    simp only [reportEach, Proc.bind, exitOnError_silent C r w hr.2 (Or.inl hr.1)]
    exact ih hrest

/-- C7: for every successful check result (no error, Retry false), whatever its
category and Warning flag, `exitOnError` writes nothing to `os.Stderr` and does
not end the process; hence a run in which every reported outcome is a success
leaves `os.Stderr` untouched: zero diagnostic lines. -/
theorem C7_exitOnError_success_silent (C : CategoryIDs γ) (w : World ε) :
    (∀ r : CheckResult γ, r.Err = none → r.Retry = false →
      exitOnError C r w = (Outcome.returned (), w)) ∧
    (∀ rs : List (CheckResult γ), (∀ r ∈ rs, r.Err = none ∧ r.Retry = false) →
      reportEach (exitOnError C) rs w = (Outcome.returned (), w)) :=
  ⟨fun r hE hR => exitOnError_silent C r w hR (Or.inl hE),
   fun rs h => reportEach_success C rs w h⟩

/-- Witness for C7: one successful result, and a run of two successful results. -/
theorem C7_exitOnError_success_silent_witness :
    exitOnError sampleIDs
        { Category := "kubernetes-api", Retry := false, Warning := true, Err := none }
        sampleWorld = (Outcome.returned (), sampleWorld) ∧
    reportEach (exitOnError sampleIDs)
        [{ Category := "kubernetes-api", Retry := false, Warning := false, Err := none },
         { Category := "linkerd-existence", Retry := false, Warning := false, Err := none }]
        sampleWorld = (Outcome.returned (), sampleWorld) :=
  ⟨(C7_exitOnError_success_silent sampleIDs sampleWorld).1 _ rfl rfl,
   (C7_exitOnError_success_silent sampleIDs sampleWorld).2 _ (by simp)⟩

/-- C10: for every hard failure (Retry false, error present, Warning false)
whose category is none of KubernetesAPIChecks,
LinkerdControlPlaneExistenceChecks and LinkerdAPIChecks, `exitOnError` uses the
empty string as headline: it writes a colon, a space and the error, then the
remediation line, and ends the process with exit code 1, exactly as for a
mapped category. -/
theorem C10_exitOnError_unmapped_category (C : CategoryIDs γ) (r : CheckResult γ)
    (err : GoError) (w : World ε)
    (hRetry : r.Retry = false) (hErr : r.Err = some err) (hWarn : r.Warning = false)
    (h1 : r.Category ≠ C.KubernetesAPIChecks)
    (h2 : r.Category ≠ C.LinkerdControlPlaneExistenceChecks)
    (h3 : r.Category ≠ C.LinkerdAPIChecks) :
    exitOnError C r w =
      (Outcome.exited 1,
        { w with stderr := w.stderr ++
            [": " ++ err ++ "\n", "Validate the install with: linkerd check\n"] }) := by
  have e0 : "" ++ ": " = ": " := by decide
  rw [exitOnError_hard C r err w hRetry hErr hWarn, if_neg h1, if_neg h2, if_neg h3, e0]

/-- Witness for C10: a hard failure of a category outside the three. -/
theorem C10_exitOnError_unmapped_category_witness :
    exitOnError sampleIDs
        { Category := "linkerd-version", Retry := false, Warning := false,
          Err := some "is running version 1 but the latest is 2" }
        sampleWorld =
      (Outcome.exited 1,
        { sampleWorld with stderr := sampleWorld.stderr ++
            [": " ++ "is running version 1 but the latest is 2" ++ "\n",
             "Validate the install with: linkerd check\n"] }) :=
  C10_exitOnError_unmapped_category sampleIDs
    { Category := "linkerd-version", Retry := false, Warning := false,
      Err := some "is running version 1 but the latest is 2" }
    "is running version 1 but the latest is 2" sampleWorld rfl rfl rfl
    (by decide) (by decide) (by decide)

end ExitOnError

/-! ## Theorems about the raw clients -/

section RawClients

variable {ε Ctx KubeAPI κp κv : Type}

/-- C1: for every namespace, cluster context and address, `RawPublicAPIClient`
and `RawVizAPIClient` are, as effectful computations, exactly the direct
constructor (`NewInternalPublicClient` / `NewInternalClient`) called with that
namespace and that literal address when the address is non-empty, and exactly
the proxied constructor (`NewExternalPublicClient` / `NewExternalClient`) when
the address is the empty string.  Result and effects are those of the selected
constructor alone, whatever the other constructors are or would do, so the
other variant is neither invoked nor tried as a fallback when the selected one
returns an error. -/
theorem C1_raw_client_selection (P : PublicPkg ε Ctx KubeAPI κp κv)
    (ctx : Ctx) (kubeAPI : KubeAPI) (controlPlaneNamespace apiAddr : String) :
    (apiAddr ≠ "" →
      ∀ (extPublic : Ctx → String → KubeAPI → Proc ε (κp × Option GoError))
        (extViz : Ctx → String → KubeAPI → Proc ε (κv × Option GoError)),
        RawPublicAPIClient
            { P with NewExternalPublicClient := extPublic, NewExternalClient := extViz }
            ctx kubeAPI controlPlaneNamespace apiAddr
          = P.NewInternalPublicClient controlPlaneNamespace apiAddr ∧
        RawVizAPIClient
            { P with NewExternalPublicClient := extPublic, NewExternalClient := extViz }
            ctx kubeAPI controlPlaneNamespace apiAddr
          = P.NewInternalClient controlPlaneNamespace apiAddr) ∧
    (apiAddr = "" →
      ∀ (intPublic : String → String → Proc ε (κp × Option GoError))
        (intViz : String → String → Proc ε (κv × Option GoError)),
        RawPublicAPIClient
            { P with NewInternalPublicClient := intPublic, NewInternalClient := intViz }
            ctx kubeAPI controlPlaneNamespace apiAddr
          = P.NewExternalPublicClient ctx controlPlaneNamespace kubeAPI ∧
        RawVizAPIClient
            { P with NewInternalPublicClient := intPublic, NewInternalClient := intViz }
            ctx kubeAPI controlPlaneNamespace apiAddr
          = P.NewExternalClient ctx controlPlaneNamespace kubeAPI) := by
  constructor
  · intro h extPublic extViz
    simp [RawPublicAPIClient, RawVizAPIClient, h]
  · intro h intPublic intViz
    simp [RawPublicAPIClient, RawVizAPIClient, h]

/-- Witness for C1: an explicit address selects the direct constructors, which
succeed; the empty address selects the proxied constructors, whose error is
handed back as it is. -/
theorem C1_raw_client_selection_witness :
    (RawPublicAPIClient samplePublicPkg () () "linkerd" "10.0.0.1:8086" sampleWorld
        = (Outcome.returned ("public client for " ++ "linkerd" ++ " at " ++ "10.0.0.1:8086", none),
            sampleWorld) ∧
      RawVizAPIClient samplePublicPkg () () "linkerd" "10.0.0.1:8086" sampleWorld
        = (Outcome.returned ("viz client for " ++ "linkerd" ++ " at " ++ "10.0.0.1:8086", none),
            sampleWorld)) ∧
    (RawPublicAPIClient samplePublicPkg () () "linkerd" "" sampleWorld
        = (Outcome.returned ("", some ("no route to the public API in " ++ "linkerd")),
            sampleWorld) ∧
      RawVizAPIClient samplePublicPkg () () "linkerd" "" sampleWorld
        = (Outcome.returned ("", some ("no route to the viz API in " ++ "linkerd")),
            sampleWorld)) :=
  ⟨⟨congrFun ((C1_raw_client_selection samplePublicPkg () () "linkerd" "10.0.0.1:8086").1
        (by decide) samplePublicPkg.NewExternalPublicClient
        samplePublicPkg.NewExternalClient).1 sampleWorld,
    congrFun ((C1_raw_client_selection samplePublicPkg () () "linkerd" "10.0.0.1:8086").1
        (by decide) samplePublicPkg.NewExternalPublicClient
        samplePublicPkg.NewExternalClient).2 sampleWorld⟩,
   ⟨congrFun ((C1_raw_client_selection samplePublicPkg () () "linkerd" "").2
        rfl samplePublicPkg.NewInternalPublicClient
        samplePublicPkg.NewInternalClient).1 sampleWorld,
    congrFun ((C1_raw_client_selection samplePublicPkg () () "linkerd" "").2
        rfl samplePublicPkg.NewInternalPublicClient
        samplePublicPkg.NewInternalClient).2 sampleWorld⟩⟩

end RawClients

/-! ## Theorems about the checked clients -/

section CheckedClients

variable {ε ω γ HC κp κv : Type} [DecidableEq γ]

/-- C2: for every options value and every `apiChecks` flag, the category list
that `CheckPublicAPIClientOrRetryOrExit` and `CheckVizAPIClientOrRetryOrExit`
hand to `NewHealthChecker` is exactly KubernetesAPIChecks,
LinkerdControlPlaneExistenceChecks when `apiChecks` is false, and exactly
KubernetesAPIChecks, LinkerdControlPlaneExistenceChecks, LinkerdAPIChecks when
it is true; the checker built from it is then run with `exitOnError` as
observer and asked for the client. -/
theorem C2_category_list (H : HealthcheckPkg ε ω γ HC κp κv) (C : CategoryIDs γ)
    (hcOptions : Options ω) (apiChecks : Bool) :
    CheckPublicAPIClientOrRetryOrExit H C hcOptions apiChecks =
      Proc.bind
        (H.NewHealthChecker
          (if apiChecks = true then
            [C.KubernetesAPIChecks, C.LinkerdControlPlaneExistenceChecks, C.LinkerdAPIChecks]
           else [C.KubernetesAPIChecks, C.LinkerdControlPlaneExistenceChecks])
          hcOptions)
        (fun hc => Proc.bind (H.RunChecks hc (exitOnError C)) (fun _ => H.PublicAPIClient hc)) ∧
    CheckVizAPIClientOrRetryOrExit H C hcOptions apiChecks =
      Proc.bind
        (H.NewHealthChecker
          (if apiChecks = true then
            [C.KubernetesAPIChecks, C.LinkerdControlPlaneExistenceChecks, C.LinkerdAPIChecks]
           else [C.KubernetesAPIChecks, C.LinkerdControlPlaneExistenceChecks])
          hcOptions)
        (fun hc => Proc.bind (H.RunChecks hc (exitOnError C)) (fun _ => H.VizAPIClient hc)) := by
  cases apiChecks <;> exact ⟨rfl, rfl⟩

/-- C9: for every options value, whatever retry deadline it carries,
`CheckPublicAPIClientOrExit` is `CheckPublicAPIClientOrRetryOrExit` with
`apiChecks` false on the options with `RetryDeadline` replaced by the zero time
and every other field unchanged, and `CheckVizAPIClientOrExit` is
`CheckVizAPIClientOrRetryOrExit` in the same way; the checker is built from the
two baseline categories only, never LinkerdAPIChecks. -/
theorem C9_or_exit_discards_deadline (H : HealthcheckPkg ε ω γ HC κp κv) (C : CategoryIDs γ)
    (hcOptions : Options ω) :
    CheckPublicAPIClientOrExit H C hcOptions =
      CheckPublicAPIClientOrRetryOrExit H C
        { RetryDeadline := zeroTime, others := hcOptions.others } false ∧
    CheckVizAPIClientOrExit H C hcOptions =
      CheckVizAPIClientOrRetryOrExit H C
        { RetryDeadline := zeroTime, others := hcOptions.others } false ∧
    CheckPublicAPIClientOrExit H C hcOptions =
      Proc.bind
        (H.NewHealthChecker [C.KubernetesAPIChecks, C.LinkerdControlPlaneExistenceChecks]
          { RetryDeadline := zeroTime, others := hcOptions.others })
        (fun hc => Proc.bind (H.RunChecks hc (exitOnError C)) (fun _ => H.PublicAPIClient hc)) ∧
    CheckVizAPIClientOrExit H C hcOptions =
      Proc.bind
        (H.NewHealthChecker [C.KubernetesAPIChecks, C.LinkerdControlPlaneExistenceChecks]
          { RetryDeadline := zeroTime, others := hcOptions.others })
        (fun hc => Proc.bind (H.RunChecks hc (exitOnError C)) (fun _ => H.VizAPIClient hc)) :=
  ⟨rfl, rfl, rfl, rfl⟩

end CheckedClients

/-! ## Theorems about the Readiness Gate with an unset deadline -/

section GateOrder

variable {ε γ : Type}

/-- Running the categories `cs1 ++ c :: cs2`, when the categories `cs1`
complete, continues with `c` in the world they leave. -/
theorem gateRunChecks_append (G : GateEnv ε γ) (deadline : Time)
    (onOutcome : CheckResult γ → Proc ε Unit) (retries : Nat)
    (cs1 cs2 : List γ) (c : γ) (w w1 : World ε) (b : Bool)
    (h : gateRunChecks G deadline onOutcome retries cs1 w = (Outcome.returned b, w1)) :
    gateRunChecks G deadline onOutcome retries (cs1 ++ c :: cs2) w =
      gateRunChecks G deadline onOutcome retries (c :: cs2) w1 := by
  induction cs1 generalizing w with
  | nil =>
    simp only [gateRunChecks, Proc.pure, Prod.mk.injEq] at h
    rw [← h.2]
    rfl
  | cons a rest ih =>
    simp only [gateRunChecks, Proc.bind, List.cons_append] at h ⊢
    cases hcat : gateCategory G deadline onOutcome retries a w with
    | mk out w0 =>
      rw [hcat] at h
      cases out with
      | returned u => simpa using ih w0 h
      | exited code => simp at h
      | outOfFuel => simp at h

end GateOrder

section Gate

variable {ε ω γ κp κv : Type} [DecidableEq γ]

/-- With the deadline unset, the outcomes of one attempt that start with
outcomes that are neither retryable nor failures and then hold a retryable
failure end the process at that failure, after its waiting notice. -/
theorem gateOutcomes_unset_first_retryable (G : GateEnv ε γ) (C : CategoryIDs γ)
    (pre post : List (CheckResult γ)) (r : CheckResult γ) (w : World ε)
    (hpre : ∀ x ∈ pre, x.Retry = false ∧ (x.Err = none ∨ x.Warning = true))
    (hRetry : r.Retry = true) (hErr : r.Err ≠ none) (hWarn : r.Warning = false) :
    gateOutcomes G zeroTime (exitOnError C) (pre ++ r :: post) w =
      (Outcome.exited 1,
        { w with stderr := w.stderr ++ ["Waiting for control plane to become available\n"] }) := by
  induction pre with
  | nil =>
    simp [gateOutcomes, Proc.bind, exitOnError_retry C r w hRetry, hRetry, hErr, hWarn, osExit]
  | cons x rest ih =>
    have hx := hpre x (List.mem_cons_self x rest)
    have hrest : ∀ y ∈ rest, y.Retry = false ∧ (y.Err = none ∨ y.Warning = true) :=
      fun y hy => hpre y (List.mem_cons_of_mem x hy)
    have step : gateOutcomes G zeroTime (exitOnError C) (x :: rest ++ r :: post) w =
        gateOutcomes G zeroTime (exitOnError C) (rest ++ r :: post) w := by
      rcases hx.2 with hE | hW
      · simp [gateOutcomes, Proc.bind, exitOnError_silent C x w hx.1 hx.2, hE]
      · simp [gateOutcomes, Proc.bind, exitOnError_silent C x w hx.1 hx.2, hW]
    rw [step]
    exact ih hrest

/-- With the deadline unset, a category whose outcomes hold a first retryable
failure ends the process there, whatever the number of re-runs allowed: the
Check Provider is asked once and the category is not re-run. -/
theorem gateCategory_unset_first_retryable (G : GateEnv ε γ) (C : CategoryIDs γ)
    (retries : Nat) (c : γ) (pre post : List (CheckResult γ)) (r : CheckResult γ)
    (w1 w2 : World ε)
    (hprov : G.checkProvider c w1 = (Outcome.returned (pre ++ r :: post), w2))
    (hpre : ∀ x ∈ pre, x.Retry = false ∧ (x.Err = none ∨ x.Warning = true))
    (hRetry : r.Retry = true) (hErr : r.Err ≠ none) (hWarn : r.Warning = false) :
    gateCategory G zeroTime (exitOnError C) retries c w1 =
      (Outcome.exited 1,
        { w2 with stderr := w2.stderr ++ ["Waiting for control plane to become available\n"] }) := by
  cases retries <;> simp only [gateCategory, Proc.bind, hprov,
    gateOutcomes_unset_first_retryable G C pre post r w2 hpre hRetry hErr hWarn]

/-- C8: if the retry deadline is unset (zero value) and a retryable outcome
occurs, the process ends on the very first such outcome, with exit code 1 and
zero retries.  In the acquisition run by `CheckPublicAPIClientOrExit` and
`CheckVizAPIClientOrExit` over the Readiness Gate, whatever deadline the caller
passed and whatever number of re-runs the gate would allow: when the categories
before `c` complete, and the Check Provider then reports for `c` outcomes that
are neither retryable nor failures followed by a retryable failure `r`, the
process ends with exit code 1 right after the waiting notice for `r`, in the
world the Check Provider left: no sleep, no second request to the Check
Provider, no later outcome reported. -/
theorem C8_unset_deadline_first_retryable_fatal (G : GateEnv ε γ) (C : CategoryIDs γ)
    (retries : Nat) (publicClient : Options ω → Proc ε κp) (vizClient : Options ω → Proc ε κv)
    (hcOptions : Options ω) (cs1 cs2 : List γ) (c : γ)
    (pre post : List (CheckResult γ)) (r : CheckResult γ) (w w1 w2 : World ε)
    (hcats : [C.KubernetesAPIChecks, C.LinkerdControlPlaneExistenceChecks] = cs1 ++ c :: cs2)
    (hearlier : gateRunChecks G zeroTime (exitOnError C) retries cs1 w
      = (Outcome.returned true, w1))
    (hprov : G.checkProvider c w1 = (Outcome.returned (pre ++ r :: post), w2))
    (hpre : ∀ x ∈ pre, x.Retry = false ∧ (x.Err = none ∨ x.Warning = true))
    (hRetry : r.Retry = true) (hErr : r.Err ≠ none) (hWarn : r.Warning = false) :
    CheckPublicAPIClientOrExit (gateHealthcheck G retries publicClient vizClient) C hcOptions w =
      (Outcome.exited 1,
        { w2 with stderr := w2.stderr ++ ["Waiting for control plane to become available\n"] }) ∧
    CheckVizAPIClientOrExit (gateHealthcheck G retries publicClient vizClient) C hcOptions w =
      (Outcome.exited 1,
        { w2 with stderr := w2.stderr ++ ["Waiting for control plane to become available\n"] }) := by
  have hrun : gateRunChecks G zeroTime (exitOnError C) retries
      [C.KubernetesAPIChecks, C.LinkerdControlPlaneExistenceChecks] w =
      (Outcome.exited 1,
        { w2 with stderr := w2.stderr ++ ["Waiting for control plane to become available\n"] }) := by
    rw [hcats, gateRunChecks_append G zeroTime (exitOnError C) retries cs1 cs2 c w w1 true hearlier]
    simp only [gateRunChecks, Proc.bind,
      gateCategory_unset_first_retryable G C retries c pre post r w1 w2 hprov hpre hRetry hErr hWarn]
  constructor
  · simp only [CheckPublicAPIClientOrExit, CheckPublicAPIClientOrRetryOrExit, gateHealthcheck,
      Proc.bind, Proc.pure]
    simp [hrun]
  · simp only [CheckVizAPIClientOrExit, CheckVizAPIClientOrRetryOrExit, gateHealthcheck,
      Proc.bind, Proc.pure]
    simp [hrun]

/-- Witness for C8: the caller asks for a deadline far in the future and three
re-runs; the first category succeeds, the second reports a success, then a
retryable failure, then a hard failure.  The process ends with exit code 1
after the single waiting notice. -/
theorem C8_unset_deadline_first_retryable_fatal_witness :
    CheckPublicAPIClientOrExit
        (gateHealthcheck sampleGate 3 (fun _ => Proc.pure "public client")
          (fun _ => Proc.pure "viz client"))
        sampleIDs { RetryDeadline := 1000000, others := () } sampleWorld =
      (Outcome.exited 1,
        { sampleWorld with stderr := sampleWorld.stderr ++
            ["Waiting for control plane to become available\n"] }) ∧
    CheckVizAPIClientOrExit
        (gateHealthcheck sampleGate 3 (fun _ => Proc.pure "public client")
          (fun _ => Proc.pure "viz client"))
        sampleIDs { RetryDeadline := 1000000, others := () } sampleWorld =
      (Outcome.exited 1,
        { sampleWorld with stderr := sampleWorld.stderr ++
            ["Waiting for control plane to become available\n"] }) :=
  C8_unset_deadline_first_retryable_fatal sampleGate sampleIDs 3
    (fun _ => Proc.pure "public client") (fun _ => Proc.pure "viz client")
    { RetryDeadline := 1000000, others := () }
    ["kubernetes-api"] [] "linkerd-existence"
    [{ Category := "linkerd-existence", Retry := false, Warning := false, Err := none }]
    [{ Category := "linkerd-existence", Retry := false, Warning := false, Err := some "no pods" }]
    { Category := "linkerd-existence", Retry := true, Warning := false,
      Err := some "waiting for check to complete" }
    sampleWorld sampleWorld sampleWorld
    rfl (by decide) (by decide) (by simp) rfl (by simp) rfl

end Gate

end Linkerd
